import Mathlib

/-!
Verification of the house-price-estimator repository.

The development shallowly embeds the two source files:
* `train_global.py` — feature synthesis over the California-housing base
  frame, composite-target arithmetic, and the fixed feature column order;
* `app.py` — the serving script: model loading, currency configuration,
  the inference-input construction and the submit-time control flow.

Real numbers of the scripts are embedded as rationals.  The numpy global
random generator is embedded as an explicit state (`RNGState`) threaded
through the synthesis; the concrete generator is a linear congruential
stand-in for the Mersenne Twister — every claim about the synthesis either
quantifies over arbitrary draw values or concerns only the seeding
discipline, so no claim depends on the stand-in's particular stream.
-/

namespace HousePrice

/-- One row of the base California-housing frame, restricted to the columns
`train_global.py` reads: coordinates, `HouseAge` and the original target
`MedHouseVal` (the location value, in $100,000 units). -/
structure BaseRow where
  latitude : ℚ
  longitude : ℚ
  houseAge : ℚ
  medHouseVal : ℚ
deriving DecidableEq

/-- One row of the augmented frame after `train_global.py` lines 29–63: the
base columns plus the synthetic structural attributes and the computed
`FinalPrice` label. -/
structure AugRow where
  latitude : ℚ
  longitude : ℚ
  houseAge : ℚ
  medHouseVal : ℚ
  totalArea : ℤ
  garageCars : ℕ
  bedrooms : ℕ
  finalPrice : ℚ
deriving DecidableEq

/-! ### The global random generator

`np.random.seed(42)` resets numpy's process-global generator; every draw
advances it.  The state is a 64-bit word advanced by a linear congruential
step (a stand-in for the Mersenne Twister; only determinism matters here). -/

/-- One step of the stand-in generator (64-bit linear congruential). -/
def lcgStep (s : ℕ) : ℕ :=
  (6364136223846793005 * s + 1442695040888963407) % (2 ^ 64)

/-- The state of the process-global random generator. -/
structure RNGState where
  state : ℕ
deriving DecidableEq

/-- Embedding of `np.random.seed n`: the subsequent stream is a function of
`n` alone, whatever the generator state was before. -/
def seedRNG (n : ℕ) : RNGState := ⟨lcgStep n⟩

/-- Produce one raw word and the advanced state. -/
def nextNat (g : RNGState) : ℕ × RNGState :=
  (g.state, ⟨lcgStep g.state⟩)

/-- Produce one draw in `[0,1)` and the advanced state. -/
def unitDraw (g : RNGState) : ℚ × RNGState :=
  let p := nextNat g
  (((p.1 % 1000000 : ℕ) : ℚ) / 1000000, p.2)

/-- Embedding of one `np.random.normal 1800 600` draw: a deterministic
transform of the stream (the library's exact gaussian transform is numeric
internals; the claims quantify over the draw value). -/
def normalDraw (mu sigma : ℚ) (g : RNGState) : ℚ × RNGState :=
  let p := unitDraw g
  (mu + sigma * (2 * p.1 - 1), p.2)

/-- Draw `n` values with generator-state threading, the way a numpy
`size=n` call fills an array. -/
def drawN {α : Type} (f : RNGState → α × RNGState) : ℕ → RNGState → List α × RNGState
  | 0, g => ([], g)
  | n + 1, g =>
    let p := f g
    let q := drawN f n p.2
    (p.1 :: q.1, q.2)

/-! ### Per-draw post-processing (train_global.py lines 29–36) -/

/-- Truncation toward zero: the semantics of numpy `astype(int)` on a
float array. -/
def truncQ (q : ℚ) : ℤ := if q < 0 then ⌈q⌉ else ⌊q⌋

/-- Embedding of `pandas.Series.clip lo hi` applied entrywise. -/
def clipInt (lo hi x : ℤ) : ℤ := min hi (max lo x)

/-- Line 29–30: `TotalArea` from one normal draw — cast to int
(truncation toward zero), then clipped to `[500, 5000]`. -/
def totalAreaOfDraw (x : ℚ) : ℤ := clipInt 500 5000 (truncQ x)

/-- The spec's wording of the same step, for comparison: the draw ROUNDED
to the nearest integer, then clipped to `[500, 5000]`. -/
def totalAreaSpecRound (x : ℚ) : ℤ := clipInt 500 5000 (round x)

/-- Line 32: `np.random.choice [0,1,2,3] (p := [0.1,0.3,0.5,0.1])` as the
inverse-CDF selection from a unit draw: the cutpoints are the cumulative
probabilities 0.1, 0.4, 0.9, 1. -/
def garageOfUnit (u : ℚ) : ℕ :=
  if u < 1 / 10 then 0
  else if u < 4 / 10 then 1
  else if u < 9 / 10 then 2
  else 3

/-- Line 33: `np.random.randint 1 6` — a uniform integer in `[1, 5]`,
obtained from one raw word. -/
def bedroomsOfNat (r : ℕ) : ℕ := 1 + r % 5

/-! ### Composite target (train_global.py lines 51–63) -/

/-- Lines 53–58: the structure component of the price, in $100,000 units:
`TotalArea*0.0015 + GarageCars*0.15 + Bedrooms*0.10 - HouseAge*0.02`. -/
def structure_component (totalArea : ℤ) (garageCars bedrooms : ℕ) (houseAge : ℚ) : ℚ :=
  (totalArea : ℚ) * (15 / 10000) + (garageCars : ℚ) * (15 / 100)
    + (bedrooms : ℚ) * (10 / 100) - houseAge * (2 / 100)

/-- Lines 61–63: `FinalPrice` = location component + structure component,
then `clip (lower := 0.5)`. -/
def finalPriceOf (locationValue sv : ℚ) : ℚ := max (locationValue + sv) (1 / 2)

/-! ### Assembling the augmented frame -/

/-- Combine the base rows with the three per-row draw streams into the
augmented rows, applying the per-draw post-processing and the composite
target of lines 29–63. -/
def buildRows : List BaseRow → List ℚ → List ℚ → List ℕ → List AugRow
  | b :: bs, a :: as_, u :: us, r :: rs =>
    let ta := totalAreaOfDraw a
    let gc := garageOfUnit u
    let bd := bedroomsOfNat r
    { latitude := b.latitude
      longitude := b.longitude
      houseAge := b.houseAge
      medHouseVal := b.medHouseVal
      totalArea := ta
      garageCars := gc
      bedrooms := bd
      finalPrice := finalPriceOf b.medHouseVal
        (structure_component ta gc bd b.houseAge) } :: buildRows bs as_ us rs
  | _, _, _, _ => []

/-- The whole feature-synthesis section of `train_global.py` (lines 25–63):
seed the global generator with 42 (discarding whatever state `g0` it had),
fill the `TotalArea`, `GarageCars` and `Bedrooms` arrays in script order,
and compute `FinalPrice`.  Returns the augmented rows and the generator
state the script leaves behind. -/
def synthesize (g0 : RNGState) (base : List BaseRow) : List AugRow × RNGState :=
  let _ := g0
  let n := base.length
  let g := seedRNG 42
  let pa := drawN (normalDraw 1800 600) n g
  let pu := drawN unitDraw n pa.2
  let pr := drawN nextNat n pu.2
  (buildRows base pa.1 pu.1 pr.1, pr.2)

/-! ### Feature columns and serving-side constants -/

/-- Line 66 of `train_global.py`: the training feature column order. -/
def feature_cols : List String :=
  ["Latitude", "Longitude", "TotalArea", "GarageCars", "Bedrooms", "HouseAge"]

/-- Lines 132–139 of `app.py`: the column order of the inference-time
`input_df` construction. -/
def input_df_cols : List String :=
  ["Latitude", "Longitude", "TotalArea", "GarageCars", "Bedrooms", "HouseAge"]

/-- Lines 15–19 of `app.py`: the static currency-rate table, in its
insertion order. -/
def CURRENCIES : List (String × ℚ) :=
  [("USD", 1), ("INR", 83), ("CNY", 72 / 10), ("EUR", 92 / 100), ("JPY", 150),
   ("GBP", 79 / 100), ("BRL", 495 / 100), ("RUB", 91), ("TRY", 30),
   ("KRW", 1330), ("SAR", 375 / 100)]

/-- Lines 20–23 of `app.py`: the currency display symbols. -/
def SYMBOLS : List (String × String) :=
  [("USD", "$"), ("INR", "₹"), ("CNY", "¥"), ("EUR", "€"), ("JPY", "¥"),
   ("GBP", "£"), ("BRL", "R$"), ("RUB", "₽"), ("TRY", "₺"), ("KRW", "₩"),
   ("SAR", "﷼")]

/-- Line 67 of `app.py`: the radio offers `list(CURRENCIES.keys())[:5]`. -/
def selectable_currencies : List String := (CURRENCIES.map Prod.fst).take 5

/-- Line 68: `CURRENCIES.get sel_curr 1.0`. -/
def currency_rate (c : String) : ℚ := (CURRENCIES.lookup c).getD 1

/-- Line 69: `SYMBOLS.get sel_curr "$"`. -/
def currency_symbol (c : String) : String := (SYMBOLS.lookup c).getD "$"

/-- Line 144 of `app.py`: scale the raw prediction ($100,000 units) to USD. -/
def pred_usd (pred_raw : ℚ) : ℚ := pred_raw * 100000

/-- Line 147 of `app.py`: apply the currency rate to the USD amount. -/
def pred_final (pred_raw rate : ℚ) : ℚ := pred_usd pred_raw * rate

/-! ### The serving script's control flow (app.py lines 47–153) -/

/-- The inference-time feature record built at lines 132–139 of `app.py`. -/
structure InferenceInput where
  latitude : ℚ
  longitude : ℚ
  totalArea : ℕ
  garageCars : ℕ
  bedrooms : ℕ
  houseAge : ℕ

/-- The loaded pipeline is opaque to the serving script: a function from an
inference input to the raw prediction in $100,000 units. -/
def Model : Type := InferenceInput → ℚ

/-- What one run of the serving script does, observably. -/
inductive AppResult where
  /-- `st.error` at line 54 followed by `st.stop` at line 55. -/
  | startupAbort (msg : String)
  /-- `st.error (select_loc_warn)` at line 128. -/
  | locationError
  /-- the form was not submitted; no prediction branch ran. -/
  | noSubmit
  /-- the prediction markdown of line 150: converted amount and symbol. -/
  | predictionShown (amount : ℚ) (symbol : String)

/-- One run of the serving script, `app.py` lines 51–150: attempt the model
load (`try: model = load_model() except: st.error; st.stop()`), then, when
the form was submitted, guard on the map click before predicting.  Returns
the observable result paired with the number of `model.predict` calls. -/
def runApp (load : Except String Model) (sel_curr : String) (submitted : Bool)
    (lat lon : Option ℚ) (total_area garage_cars bedrooms house_age : ℕ) :
    AppResult × ℕ :=
  match load with
  | .error e => (.startupAbort ("Error loading global model: " ++ e), 0)
  | .ok model =>
    if submitted then
      match lat, lon with
      | some la, some lo =>
        let input : InferenceInput :=
          ⟨la, lo, total_area, garage_cars, bedrooms, house_age⟩
        let pred_raw := model input
        (.predictionShown (pred_final pred_raw (currency_rate sel_curr))
          (currency_symbol sel_curr), 1)
      | _, _ => (.locationError, 0)
    else (.noSubmit, 0)

/-- A one-row sample base dataset used to instantiate the theorems on a
concrete input: latitude 1, longitude 2, `HouseAge` 10, `MedHouseVal` 2. -/
def b0 : BaseRow := ⟨1, 2, 10, 2⟩

/-- The single augmented row the synthesis produces from `[b0]`: the seeded
stream yields the normal draw 1856.3916 (truncated and clipped to 1856), a
unit draw 0.16702 (garage category 1) and a raw word divisible by 5
(bedrooms 1); the composite target is 2 + 2.834 = 4.834. -/
def r0 : AugRow :=
  { latitude := 1, longitude := 2, houseAge := 10, medHouseVal := 2,
    totalArea := 1856, garageCars := 1, bedrooms := 1, finalPrice := 2417 / 500 }

/-! ### Helper lemmas -/

/-- Evaluating the synthesis on the sample base dataset. -/
theorem synthesize_b0_eval : (synthesize ⟨0⟩ [b0]).1 = [r0] := by
  simp only [synthesize, drawN, seedRNG, lcgStep, nextNat, unitDraw, normalDraw,
    buildRows, totalAreaOfDraw, truncQ, clipInt, garageOfUnit, bedroomsOfNat,
    structure_component, finalPriceOf, List.length, b0, r0]
  norm_num [AugRow.mk.injEq, min_def, max_def]

/-- The sample augmented row is a row of the sample synthesis output. -/
theorem r0_mem : r0 ∈ (synthesize ⟨0⟩ [b0]).1 := by
  rw [synthesize_b0_eval]; exact List.mem_singleton.mpr rfl

/-- Every row the synthesis builds carries a `FinalPrice` computed from its
own columns by the composite-target formula. -/
theorem buildRows_finalPrice (bs : List BaseRow) (as_ us : List ℚ) (rs : List ℕ) :
    ∀ row ∈ buildRows bs as_ us rs,
      row.finalPrice = finalPriceOf row.medHouseVal
        (structure_component row.totalArea row.garageCars row.bedrooms row.houseAge) := by
  induction bs generalizing as_ us rs with
  | nil => intro row h; simp [buildRows] at h
  | cons b bs ih =>
    intro row h
    match as_, us, rs with
    | [], _, _ => simp [buildRows] at h
    | _ :: _, [], _ => simp [buildRows] at h
    | _ :: _, _ :: _, [] => simp [buildRows] at h
    | a :: as_, u :: us, r :: rs =>
      simp only [buildRows, List.mem_cons] at h
      rcases h with h | h
      · subst h; rfl
      · exact ih as_ us rs row h

/-- Every row the synthesis builds has its `TotalArea` inside the clip
interval. -/
theorem buildRows_totalArea_mem (bs : List BaseRow) (as_ us : List ℚ) (rs : List ℕ) :
    ∀ row ∈ buildRows bs as_ us rs, 500 ≤ row.totalArea ∧ row.totalArea ≤ 5000 := by
  induction bs generalizing as_ us rs with
  | nil => intro row h; simp [buildRows] at h
  | cons b bs ih =>
    intro row h
    match as_, us, rs with
    | [], _, _ => simp [buildRows] at h
    | _ :: _, [], _ => simp [buildRows] at h
    | _ :: _, _ :: _, [] => simp [buildRows] at h
    | a :: as_, u :: us, r :: rs =>
      simp only [buildRows, List.mem_cons] at h
      rcases h with h | h
      · subst h
        refine ⟨?_, ?_⟩
        · exact le_min (by norm_num) (le_max_left _ _)
        · exact min_le_left _ _
      · exact ih as_ us rs row h

/-- A `size = n` numpy call fills an array of exactly `n` entries. -/
theorem drawN_length {α : Type} (f : RNGState → α × RNGState) :
    ∀ (n : ℕ) (g : RNGState), (drawN f n g).1.length = n := by
  intro n
  induction n with
  | zero => intro g; rfl
  | succ n ih => intro g; simp [drawN, ih]

/-- When the draw streams are long enough, the synthesis keeps `HouseAge`
of every base row unchanged, position by position. -/
theorem buildRows_houseAge :
    ∀ (bs : List BaseRow) (as_ us : List ℚ) (rs : List ℕ),
      bs.length ≤ as_.length → bs.length ≤ us.length → bs.length ≤ rs.length →
      ∀ i : ℕ, ((buildRows bs as_ us rs).get? i).map AugRow.houseAge
        = (bs.get? i).map BaseRow.houseAge := by
  intro bs
  induction bs with
  | nil => intro as_ us rs _ _ _ i; simp [buildRows]
  | cons b bs ih =>
    intro as_ us rs ha hu hr i
    match as_, us, rs with
    | [], _, _ => simp at ha
    | _ :: _, [], _ => simp at hu
    | _ :: _, _ :: _, [] => simp at hr
    | a :: as2, u :: us2, r :: rs2 =>
      simp only [List.length_cons, Nat.succ_le_succ_iff] at ha hu hr
      match i with
      | 0 => rfl
      | Nat.succ i => simpa [buildRows] using ih as2 us2 rs2 ha hu hr i

/-- Every row the synthesis builds has a garage category from `{0,1,2,3}`
and a bedroom count in `[1,5]`. -/
theorem buildRows_garage_bedrooms (bs : List BaseRow) (as_ us : List ℚ) (rs : List ℕ) :
    ∀ row ∈ buildRows bs as_ us rs,
      row.garageCars ∈ ([0, 1, 2, 3] : List ℕ) ∧ 1 ≤ row.bedrooms ∧ row.bedrooms ≤ 5 := by
  induction bs generalizing as_ us rs with
  | nil => intro row h; simp [buildRows] at h
  | cons b bs ih =>
    intro row h
    match as_, us, rs with
    | [], _, _ => simp [buildRows] at h
    | _ :: _, [], _ => simp [buildRows] at h
    | _ :: _, _ :: _, [] => simp [buildRows] at h
    | a :: as_, u :: us, r :: rs =>
      simp only [buildRows, List.mem_cons] at h
      rcases h with h | h
      · subst h
        refine ⟨?_, ?_, ?_⟩
        · show garageOfUnit u ∈ ([0, 1, 2, 3] : List ℕ)
          unfold garageOfUnit
          split_ifs <;> simp
        · show 1 ≤ bedroomsOfNat r
          unfold bedroomsOfNat; omega
        · show bedroomsOfNat r ≤ 5
          unfold bedroomsOfNat; omega
      · exact ih as_ us rs row h

/-! ### The claims -/

/-- C1: for every row of the augmented training dataset, the label
`FinalPrice` equals `LocationValue` (the base `MedHouseVal`) plus the
structure value `TotalArea*0.0015 + GarageCars*0.15 + Bedrooms*0.10 -
HouseAge*0.02`, floor-clamped to a minimum of 0.5 ($100,000 units). -/
theorem finalPrice_composite (g0 : RNGState) (base : List BaseRow) :
    ∀ row ∈ (synthesize g0 base).1,
      row.finalPrice =
        max (row.medHouseVal
          + ((row.totalArea : ℚ) * (15 / 10000) + (row.garageCars : ℚ) * (15 / 100)
            + (row.bedrooms : ℚ) * (10 / 100) - row.houseAge * (2 / 100))) (1 / 2) := by
  intro row h
  simp only [synthesize] at h
  have hf := buildRows_finalPrice _ _ _ _ row h
  simpa [finalPriceOf, structure_component] using hf

/-- Witness for C1: the composite-target formula checked on the sample row. -/
theorem finalPrice_composite_witness :
    r0 ∈ (synthesize ⟨0⟩ [b0]).1 ∧
      r0.finalPrice =
        max (r0.medHouseVal
          + ((r0.totalArea : ℚ) * (15 / 10000) + (r0.garageCars : ℚ) * (15 / 100)
            + (r0.bedrooms : ℚ) * (10 / 100) - r0.houseAge * (2 / 100))) (1 / 2) :=
  ⟨r0_mem, finalPrice_composite ⟨0⟩ [b0] r0 r0_mem⟩

/-- C2 counterexample: the code casts the normal draw with `astype int`,
which truncates toward zero, not the rounding the claim states: at the
draw 1800.7 the code yields 1800 while rounding yields 1801. -/
theorem totalArea_round_counterexample :
    totalAreaOfDraw (18007 / 10) ≠ totalAreaSpecRound (18007 / 10) := by
  norm_num [totalAreaOfDraw, totalAreaSpecRound, truncQ, clipInt, round_eq,
    min_def, max_def]

/-- C2 amended: `TotalArea` is the normal draw truncated toward zero
(numpy `astype int`), then clipped to `[500, 5000]`; consequently every
generated `TotalArea` lies in `[500, 5000]`. -/
theorem totalArea_bound (g0 : RNGState) (base : List BaseRow) :
    (∀ row ∈ (synthesize g0 base).1, 500 ≤ row.totalArea ∧ row.totalArea ≤ 5000) ∧
      ∀ x : ℚ, totalAreaOfDraw x = clipInt 500 5000 (truncQ x) := by
  constructor
  · intro row h
    simp only [synthesize] at h
    exact buildRows_totalArea_mem _ _ _ _ row h
  · intro x; rfl

/-- Witness for the amended C2: the bound checked on the sample row. -/
theorem totalArea_bound_witness :
    r0 ∈ (synthesize ⟨0⟩ [b0]).1 ∧ 500 ≤ r0.totalArea ∧ r0.totalArea ≤ 5000 :=
  ⟨r0_mem, (totalArea_bound ⟨0⟩ [b0]).1 r0 r0_mem⟩

/-- C3: the synthesis is deterministic — whatever the pre-existing global
generator state, and however often the script is re-run (each run re-seeds
with 42), the augmented rows come out identical. -/
theorem synthesis_deterministic (g1 g2 : RNGState) (base : List BaseRow) :
    (synthesize g1 base).1 = (synthesize g2 base).1 ∧
      (synthesize g1 base).1 = (synthesize (synthesize g1 base).2 base).1 :=
  ⟨rfl, rfl⟩

/-- C4: the feature vector is the ordered 6-tuple (Latitude, Longitude,
TotalArea, GarageCars, Bedrooms, HouseAge), and the training-time column
order equals the inference-time `input_df` column order, field for field. -/
theorem feature_order_consistent :
    feature_cols = ["Latitude", "Longitude", "TotalArea", "GarageCars", "Bedrooms", "HouseAge"]
      ∧ input_df_cols = feature_cols :=
  ⟨rfl, rfl⟩

/-- C5: every row of the augmented training dataset has `FinalPrice` at
least 0.5 ($100,000 units). -/
theorem finalPrice_floor (g0 : RNGState) (base : List BaseRow) :
    ∀ row ∈ (synthesize g0 base).1, (1 : ℚ) / 2 ≤ row.finalPrice := by
  intro row h
  simp only [synthesize] at h
  have hf := buildRows_finalPrice _ _ _ _ row h
  rw [hf]
  exact le_max_right _ _

/-- Witness for C5: the floor checked on the sample row. -/
theorem finalPrice_floor_witness :
    r0 ∈ (synthesize ⟨0⟩ [b0]).1 ∧ (1 : ℚ) / 2 ≤ r0.finalPrice :=
  ⟨r0_mem, finalPrice_floor ⟨0⟩ [b0] r0 r0_mem⟩

/-- C6: every augmented row draws its garage category from `{0,1,2,3}` —
the inverse-CDF cutpoints 0.1, 0.4, 0.9, 1 realize the categorical
probabilities 0.1, 0.3, 0.5, 0.1 — its bedroom count uniformly from the
integers 1..5 (every such value is attainable), and its `HouseAge` equals
the corresponding base row's `HouseAge`, unchanged. -/
theorem structural_draws (g0 : RNGState) (base : List BaseRow) :
    (∀ row ∈ (synthesize g0 base).1,
        row.garageCars ∈ ([0, 1, 2, 3] : List ℕ) ∧ 1 ≤ row.bedrooms ∧ row.bedrooms ≤ 5) ∧
      (∀ u : ℚ, 0 ≤ u → u < 1 →
        (garageOfUnit u = 0 ↔ u < 1 / 10) ∧
        (garageOfUnit u = 1 ↔ 1 / 10 ≤ u ∧ u < 4 / 10) ∧
        (garageOfUnit u = 2 ↔ 4 / 10 ≤ u ∧ u < 9 / 10) ∧
        (garageOfUnit u = 3 ↔ 9 / 10 ≤ u)) ∧
      (∀ k : ℕ, 1 ≤ k → k ≤ 5 → ∃ r : ℕ, bedroomsOfNat r = k) ∧
      ∀ i : ℕ, ((synthesize g0 base).1.get? i).map AugRow.houseAge
        = (base.get? i).map BaseRow.houseAge := by
  refine ⟨?_, ?_, ?_, ?_⟩
  · intro row h
    simp only [synthesize] at h
    exact buildRows_garage_bedrooms _ _ _ _ row h
  · intro u h0 h1
    unfold garageOfUnit
    split_ifs with ha hb hc
    · refine ⟨⟨fun _ => ha, fun _ => rfl⟩, ?_, ?_, ?_⟩
      · constructor
        · intro h2; exact absurd h2 (by norm_num)
        · intro h2; exfalso; linarith [h2.1]
      · constructor
        · intro h2; exact absurd h2 (by norm_num)
        · intro h2; exfalso; linarith [h2.1]
      · constructor
        · intro h2; exact absurd h2 (by norm_num)
        · intro h2; exfalso; linarith
    · push_neg at ha
      refine ⟨?_, ⟨fun _ => ⟨ha, hb⟩, fun _ => rfl⟩, ?_, ?_⟩
      · constructor
        · intro h2; exact absurd h2 (by norm_num)
        · intro h2; exfalso; linarith
      · constructor
        · intro h2; exact absurd h2 (by norm_num)
        · intro h2; exfalso; linarith [h2.1]
      · constructor
        · intro h2; exact absurd h2 (by norm_num)
        · intro h2; exfalso; linarith
    · push_neg at ha hb
      refine ⟨?_, ?_, ⟨fun _ => ⟨hb, hc⟩, fun _ => rfl⟩, ?_⟩
      · constructor
        · intro h2; exact absurd h2 (by norm_num)
        · intro h2; exfalso; linarith
      · constructor
        · intro h2; exact absurd h2 (by norm_num)
        · intro h2; exfalso; linarith [h2.2]
      · constructor
        · intro h2; exact absurd h2 (by norm_num)
        · intro h2; exfalso; linarith
    · push_neg at ha hb hc
      refine ⟨?_, ?_, ?_, ⟨fun _ => hc, fun _ => rfl⟩⟩
      · constructor
        · intro h2; exact absurd h2 (by norm_num)
        · intro h2; exfalso; linarith
      · constructor
        · intro h2; exact absurd h2 (by norm_num)
        · intro h2; exfalso; linarith [h2.2]
      · constructor
        · intro h2; exact absurd h2 (by norm_num)
        · intro h2; exfalso; linarith [h2.2]
  · intro k hk1 hk5
    exact ⟨k - 1, by unfold bedroomsOfNat; omega⟩
  · intro i
    simp only [synthesize]
    exact buildRows_houseAge base _ _ _
      (by rw [drawN_length]) (by rw [drawN_length]) (by rw [drawN_length]) i

/-- Witness for C6: the draw ranges checked on the sample row, the garage
cutpoint characterization at u = 1/2, and bedrooms value 3 attained. -/
theorem structural_draws_witness :
    (r0 ∈ (synthesize ⟨0⟩ [b0]).1 ∧ r0.garageCars ∈ ([0, 1, 2, 3] : List ℕ)
        ∧ 1 ≤ r0.bedrooms ∧ r0.bedrooms ≤ 5) ∧
      (garageOfUnit (1 / 2) = 2 ↔ 4 / 10 ≤ (1 / 2 : ℚ) ∧ (1 / 2 : ℚ) < 9 / 10) ∧
      ∃ r : ℕ, bedroomsOfNat r = 3 :=
  ⟨⟨r0_mem, (structural_draws ⟨0⟩ [b0]).1 r0 r0_mem⟩,
    ((structural_draws ⟨0⟩ [b0]).2.1 (1 / 2) (by norm_num) (by norm_num)).2.2.1,
    (structural_draws ⟨0⟩ [b0]).2.2.1 3 (by norm_num) (by norm_num)⟩

/-- C7: for any raw predictor output `p` ($100,000 units) and any rate `r`,
the displayed amount is exactly `p * 100000 * r`; in particular the INR
rate of the table is 83 and a raw output of 3 converts to 24,900,000. -/
theorem currency_conversion_exact (p r : ℚ) :
    pred_final p r = p * 100000 * r ∧ currency_rate "INR" = 83
      ∧ pred_final 3 (currency_rate "INR") = 24900000 := by
  have hINR : currency_rate "INR" = 83 := by rfl
  refine ⟨rfl, hINR, ?_⟩
  rw [hINR]
  norm_num [pred_final, pred_usd]

/-- C8: when loading the model artifact fails with any error, the serving
script reports the error and stops — whatever the rest of the request
would have been, no prediction is computed (zero predict calls) and no
fallback model is consulted. -/
theorem load_failure_aborts (e sel_curr : String) (submitted : Bool)
    (lat lon : Option ℚ) (ta gc bd ha : ℕ) :
    runApp (.error e) sel_curr submitted lat lon ta gc bd ha
      = (.startupAbort ("Error loading global model: " ++ e), 0) := rfl

/-- C9: the static table defines eleven rates and eleven symbols, the
radio offers exactly the first five (USD, INR, CNY, EUR, JPY), and any
currency missing from a table falls back to rate 1 and symbol `$`. -/
theorem currency_table_fallback (c1 c2 : String) :
    CURRENCIES.length = 11 ∧ SYMBOLS.length = 11 ∧
      selectable_currencies = ["USD", "INR", "CNY", "EUR", "JPY"] ∧
      (CURRENCIES.lookup c1 = none → currency_rate c1 = 1) ∧
      (SYMBOLS.lookup c2 = none → currency_symbol c2 = "$") := by
  refine ⟨rfl, rfl, rfl, ?_, ?_⟩
  · intro h; simp [currency_rate, h]
  · intro h; simp [currency_symbol, h]

/-- Witness for C9: the fallbacks exercised on the absent code AUD. -/
theorem currency_table_fallback_witness :
    CURRENCIES.lookup "AUD" = none ∧ currency_rate "AUD" = 1
      ∧ SYMBOLS.lookup "AUD" = none ∧ currency_symbol "AUD" = "$" := by
  have h1 : CURRENCIES.lookup "AUD" = none := by simp [CURRENCIES, List.lookup]
  have h2 : SYMBOLS.lookup "AUD" = none := by simp [SYMBOLS, List.lookup]
  exact ⟨h1, (currency_table_fallback "AUD" "AUD").2.2.2.1 h1, h2,
    (currency_table_fallback "AUD" "AUD").2.2.2.2 h2⟩

/-- C10: submitting the form while either coordinate is missing displays
the location error and performs zero predict calls; conversely, any run of
the script that performs a predict call had both coordinates present. -/
theorem predict_requires_location :
    (∀ (m : Model) (c : String) (lat lon : Option ℚ) (ta gc bd ha : ℕ),
        lat = none ∨ lon = none →
        runApp (.ok m) c true lat lon ta gc bd ha = (.locationError, 0)) ∧
      ∀ (load : Except String Model) (c : String) (s : Bool) (lat lon : Option ℚ)
        (ta gc bd ha : ℕ),
        (runApp load c s lat lon ta gc bd ha).2 ≠ 0 → lat.isSome ∧ lon.isSome := by
  constructor
  · rintro m c lat lon ta gc bd ha (rfl | rfl)
    · cases lon <;> rfl
    · cases lat <;> rfl
  · intro load c s lat lon ta gc bd ha h
    match load with
    | .error e => simp [runApp] at h
    | .ok m =>
      cases s
      · simp [runApp] at h
      · match lat, lon with
        | some la, some lo => exact ⟨rfl, rfl⟩
        | none, _ => simp [runApp] at h
        | some la, none => simp [runApp] at h

/-- Witness for C10: a submit with no map click yields the location error
and zero predict calls, and a run with one predict call had both
coordinates. -/
theorem predict_requires_location_witness :
    runApp (.ok fun _ => 3) "USD" true none (some 0) 1500 2 3 10 = (.locationError, 0)
      ∧ (Option.some (1 : ℚ)).isSome ∧ (Option.some (2 : ℚ)).isSome :=
  ⟨predict_requires_location.1 (fun _ => 3) "USD" none (some 0) 1500 2 3 10 (Or.inl rfl),
    predict_requires_location.2 (.ok fun _ => 3) "USD" true (some 1) (some 2) 1500 2 3 10
      (by simp [runApp])⟩

end HousePrice
